import Mathlib

/-!
Shallow embedding of the CAN-injection safety gate
(`can_cli/safety/rules.py`, `can_cli/safety/rate_limiter.py`,
`can_cli/core/can_interface.py`) and proofs of the specification claims.

Python `bytes` payloads are modelled as `List Nat` (only byte values and
length matter here), bus numbers as `Int` (Python ints, may be negative),
and wall-clock timestamps as `ℚ` (only ordering and subtraction are used).
-/

namespace CanCli

/-! ### String formatting helpers (Python `f"0x{address:03X}"` etc.) -/

/-- One uppercase hexadecimal digit, as in Python's `X` format. -/
def hexDigitUpper (n : Nat) : Char :=
  if n < 10 then Char.ofNat (48 + n) else Char.ofNat (55 + n)

/-- Uppercase hexadecimal digits, fuel-bounded structural recursion so that
the kernel can evaluate it (`fuel ≥ n` always suffices). -/
def hexCharsUpperAux : Nat → Nat → List Char
  | 0, _ => []
  | _, 0 => []
  | fuel + 1, n => hexCharsUpperAux fuel (n / 16) ++ [hexDigitUpper (n % 16)]

/-- Uppercase hexadecimal digits of `n` (empty for 0). -/
def hexCharsUpper (n : Nat) : List Char :=
  hexCharsUpperAux n n

/-- Python `f"{n:X}"` for a natural number. -/
def pyHexUpper (n : Nat) : String :=
  if n = 0 then "0" else ⟨hexCharsUpper n⟩

/-- Python `f"{n:03X}"`: uppercase hex, zero-padded to width 3. -/
def pyHex3 (n : Nat) : String :=
  let s := pyHexUpper n
  ⟨List.replicate (3 - s.length) '0'⟩ ++ s

/-! ### Safety rules data model (`can_cli/safety/rules.py`) -/

/-- Python `SafetyMode` enum: operating modes with different safety levels. -/
inductive SafetyMode where
  | DEVELOPMENT
  | TESTING
  | PRODUCTION
  | LOCKED
deriving DecidableEq, Repr

/-- Python `SafetyMode.value`: the enum's string value. -/
def SafetyMode.value : SafetyMode → String
  | .DEVELOPMENT => "development"
  | .TESTING => "testing"
  | .PRODUCTION => "production"
  | .LOCKED => "locked"

/-- Python `SafetyViolation` dataclass. -/
structure SafetyViolation where
  rule : String
  message : String
  severity : String
  requires_confirmation : Bool := false
  can_override : Bool := true
deriving DecidableEq, Repr

/-- Python `ValidationResult` dataclass. -/
structure ValidationResult where
  passed : Bool
  violations : List SafetyViolation
  warnings : List String
deriving DecidableEq, Repr

/-- Python `ValidationResult.requires_confirmation` property:
`any(v.requires_confirmation for v in self.violations)`. -/
def ValidationResult.requires_confirmation (r : ValidationResult) : Bool :=
  r.violations.any (fun v => v.requires_confirmation)

/-- Python `ValidationResult.can_override` property:
`all(v.can_override for v in self.violations)`. -/
def ValidationResult.can_override (r : ValidationResult) : Bool :=
  r.violations.all (fun v => v.can_override)

/-- Entry of the `CRITICAL_ADDRESSES` policy table. -/
structure AddressInfo where
  name : String
  severity : String
  description : String
deriving DecidableEq, Repr

/-- Python `SafetyRules.CRITICAL_ADDRESSES` class-level policy table. -/
def CRITICAL_ADDRESSES : List (Nat × AddressInfo) := [
  (0x180, ⟨"Steering Control", "critical", "Direct steering torque command"⟩),
  (0x2E4, ⟨"Steering Assist", "critical", "Lane keeping assist command"⟩),
  (0x200, ⟨"Brake Command", "critical", "Direct brake actuation"⟩),
  (0x343, ⟨"AEB Control", "critical", "Automatic emergency braking"⟩),
  (0x1FA, ⟨"Brake Pressure", "critical", "Brake pressure request"⟩),
  (0x220, ⟨"Throttle Control", "critical", "Throttle position command"⟩),
  (0x2C1, ⟨"Engine Torque", "critical", "Engine torque request"⟩),
  (0x260, ⟨"Transmission Control", "critical", "Gear selection command"⟩),
  (0x1D2, ⟨"Shift Request", "critical", "Transmission shift request"⟩),
  (0x326, ⟨"Cruise Control", "high", "ACC/Cruise commands"⟩),
  (0x394, ⟨"Airbag Control", "critical", "Airbag deployment control"⟩),
  (0x3B7, ⟨"Power Steering", "high", "EPS control"⟩),
  (0x451, ⟨"Stability Control", "high", "ESC/VSC commands"⟩)]

/-- Python `SafetyRules.DEFAULT_BLOCKED`: default blocked addresses per mode. -/
def DEFAULT_BLOCKED : SafetyMode → List Nat
  | .LOCKED => CRITICAL_ADDRESSES.map Prod.fst
  | .PRODUCTION => [0x180, 0x200, 0x220, 0x260, 0x343, 0x394]
  | .TESTING => [0x180, 0x200, 0x394]
  | .DEVELOPMENT => []

/-- A `SafetyRules` instance: the mode fixed at construction and the
blocked-address set (from config when present, otherwise the defaults). -/
structure SafetyRules where
  mode : SafetyMode
  blocked_addresses : List Nat
deriving DecidableEq, Repr

/-- Python `SafetyRules(mode)` with no config file: `blocked_addresses` falls back to
`DEFAULT_BLOCKED[mode]` (the repository ships no `config/defaults.yaml`). -/
def SafetyRules.mk_default (mode : SafetyMode) : SafetyRules :=
  ⟨mode, DEFAULT_BLOCKED mode⟩

/-! ### Violation constructors, mirroring each `violations.append(...)` call -/

/-- The `locked_mode` violation appended when `self.mode == SafetyMode.LOCKED`. -/
def locked_violation : SafetyViolation :=
  { rule := "locked_mode"
    message := "Write operations are not allowed in LOCKED mode"
    severity := "critical"
    requires_confirmation := false
    can_override := false }

/-- Display name used by the blocked-address branch:
`CRITICAL_ADDRESSES.get(address, {"name": f"0x{address:03X}"})["name"]`. -/
def blocked_name (address : Nat) : String :=
  match CRITICAL_ADDRESSES.lookup address with
  | some info => info.name
  | none => "0x" ++ pyHex3 address

/-- The `blocked_address` violation appended when
`address in self.blocked_addresses`. -/
def blocked_violation (address : Nat) (mode : SafetyMode) : SafetyViolation :=
  { rule := "blocked_address"
    message := "Address " ++ blocked_name address ++ " (0x" ++ pyHex3 address ++
      ") is blocked in " ++ mode.value ++ " mode"
    severity := "critical"
    requires_confirmation := false
    can_override := decide (mode = SafetyMode.DEVELOPMENT) }

/-- The `critical_message` violation appended under `PRODUCTION` for a
non-blocked address found in `CRITICAL_ADDRESSES`. -/
def critical_violation (info : AddressInfo) : SafetyViolation :=
  { rule := "critical_message"
    message := "Critical message: " ++ info.name ++ " - " ++ info.description
    severity := info.severity
    requires_confirmation := true
    can_override := true }

/-- The warning string appended for a critical but non-blocked address in a
mode other than `PRODUCTION`. -/
def critical_warning (address : Nat) (info : AddressInfo) : String :=
  "⚠️  CRITICAL: Sending to " ++ info.name ++ " (0x" ++ pyHex3 address ++ ") - " ++
    info.description

/-- The `invalid_data_length` violation on a CAN 2.0 bus (`bus < 3`). -/
def length_violation_can20 (len : Nat) : SafetyViolation :=
  { rule := "invalid_data_length"
    message := "Data length " ++ toString len ++ " exceeds CAN 2.0 limit of 8 bytes"
    severity := "high"
    requires_confirmation := false
    can_override := false }

/-- The `invalid_data_length` violation on a CAN FD bus (`bus >= 3`). -/
def length_violation_canfd (len : Nat) : SafetyViolation :=
  { rule := "invalid_data_length"
    message := "Data length " ++ toString len ++ " exceeds CAN FD limit of 64 bytes"
    severity := "high"
    requires_confirmation := false
    can_override := false }

/-- The `invalid_bus` violation when `bus not in [0, 1, 2]`. -/
def bus_violation (bus : Int) : SafetyViolation :=
  { rule := "invalid_bus"
    message := "Invalid bus number: " ++ toString bus ++ " (valid: 0, 1, 2)"
    severity := "high"
    requires_confirmation := false
    can_override := false }

/-! ### `SafetyRules.validate_message`, block by block -/

/-- The `LOCKED` / blocked-address / critical-address `if`/`elif` chain at the
top of `validate_message`: the violations and warnings it contributes. -/
def mode_address_check (self : SafetyRules) (address : Nat) :
    List SafetyViolation × List String :=
  if self.mode = SafetyMode.LOCKED then
    ([locked_violation], [])
  else if address ∈ self.blocked_addresses then
    ([blocked_violation address self.mode], [])
  else
    match CRITICAL_ADDRESSES.lookup address with
    | some info =>
        if self.mode = SafetyMode.PRODUCTION then
          ([critical_violation info], [])
        else
          ([], [critical_warning address info])
    | none => ([], [])

/-- The data-length check: `bus < 3` is treated as CAN 2.0 (limit 8 bytes),
otherwise CAN FD (limit 64 bytes). -/
def length_check (data : List Nat) (bus : Int) : List SafetyViolation :=
  if bus < 3 then
    if 8 < data.length then [length_violation_can20 data.length] else []
  else
    if 64 < data.length then [length_violation_canfd data.length] else []

/-- The bus-validity check: `bus not in [0, 1, 2]`. -/
def bus_check (bus : Int) : List SafetyViolation :=
  if bus = 0 ∨ bus = 1 ∨ bus = 2 then [] else [bus_violation bus]

/-- The trailing mode-specific advisory warnings. -/
def advisory_warnings (mode : SafetyMode) (violations : List SafetyViolation)
    (warnings : List String) (data : List Nat) : List String :=
  if mode = SafetyMode.DEVELOPMENT ∧ violations = [] then
    warnings ++ ["⚠️  Development mode active - Safety checks reduced"]
  else if mode = SafetyMode.PRODUCTION ∧ violations = [] ∧ warnings = [] then
    if data.length = 0 then warnings ++ ["⚠️  Sending empty data payload"]
    else warnings
  else warnings

/-- Python `SafetyRules.validate_message(address, data, bus)`. -/
def SafetyRules.validate_message (self : SafetyRules) (address : Nat)
    (data : List Nat) (bus : Int) : ValidationResult :=
  let (violations, warnings) := mode_address_check self address
  let violations := violations ++ length_check data bus
  let violations := violations ++ bus_check bus
  let warnings := advisory_warnings self.mode violations warnings data
  { passed := violations.isEmpty
    violations := violations
    warnings := warnings }

/-! ### Rate limiter (`can_cli/safety/rate_limiter.py`) -/

/-- Python `RateLimitConfig` dataclass with its defaults. -/
structure RateLimitConfig where
  global_limit : Nat := 1000
  per_address_limit : Nat := 100
  burst_size : Nat := 10
  window_size : ℚ := 1
  critical_address_limit : Nat := 10
deriving Repr

/-- Python `RateLimiter` state: the constructor-fixed config, the two deque families
(modelled as append-at-the-right lists; the per-address `defaultdict(deque)`
as a total function defaulting to `[]`), the `defaultdict` of burst tokens
defaulting to `burst_size`, and `last_clean`. -/
structure RateLimiterState where
  config : RateLimitConfig
  global_timestamps : List ℚ
  address_timestamps : Nat → List ℚ
  burst_tokens : Nat → Nat
  last_clean : ℚ

/-- Python `RateLimiter.__init__` at wall-clock time `now`. -/
def RateLimiterState.init (config : RateLimitConfig) (now : ℚ) : RateLimiterState :=
  { config := config
    global_timestamps := []
    address_timestamps := fun _ => []
    burst_tokens := fun _ => config.burst_size
    last_clean := now }

/-- The limiter's own `critical_addresses` set (core control and safety
systems), fixed in `RateLimiter.__init__`. -/
def rl_critical_addresses : List Nat := [0x180, 0x200, 0x220, 0x260, 0x343, 0x394]

/-- Python `RateLimiter._clean_old_timestamps(current_time)`: drop the prefix of each
deque older than `current_time - window_size` (deques are time-ordered, the
code pops from the left while the head is stale). Deleting emptied
per-address entries is the identity in the total-function model. -/
def clean_old_timestamps (s : RateLimiterState) (current_time : ℚ) : RateLimiterState :=
  let cutoff := current_time - s.config.window_size
  { s with
    global_timestamps := s.global_timestamps.dropWhile (fun t => decide (t < cutoff))
    address_timestamps := fun a =>
      (s.address_timestamps a).dropWhile (fun t => decide (t < cutoff)) }

/-- The amortized purge at the top of `check_and_update`: clean and stamp
`last_clean` only when more than 100 ms have passed since the last clean. -/
def maybe_clean (s : RateLimiterState) (current_time : ℚ) : RateLimiterState :=
  if 1/10 < current_time - s.last_clean then
    { clean_old_timestamps s current_time with last_clean := current_time }
  else s

/-- The per-address limit chosen in `check_and_update`:
`critical_address_limit` for the limiter's critical addresses, else
`per_address_limit`. -/
def effective_limit (config : RateLimitConfig) (address : Nat) : Nat :=
  if address ∈ rl_critical_addresses then config.critical_address_limit
  else config.per_address_limit

/-- The tail of `check_and_update` reached on every allow: append the
timestamp to both deques, then regenerate a burst token (capped at
`burst_size`) when the pre-append count is under half the limit. -/
def rl_record (s : RateLimiterState) (address : Nat) (current_time : ℚ)
    (address_count limit : Nat) : RateLimiterState :=
  let s := { s with
    global_timestamps := s.global_timestamps ++ [current_time]
    address_timestamps := Function.update s.address_timestamps address
      (s.address_timestamps address ++ [current_time]) }
  if (address_count : ℚ) < (limit : ℚ) / 2 then
    let regenerated := min (s.burst_tokens address + 1) s.config.burst_size
    { s with burst_tokens := Function.update s.burst_tokens address regenerated }
  else s

/-- Python `RateLimiter.check_and_update(address)` at wall-clock time `current_time`:
returns the `(allowed, error_message)` pair and the successor state. -/
def check_and_update (s : RateLimiterState) (address : Nat) (current_time : ℚ) :
    (Bool × Option String) × RateLimiterState :=
  let s := maybe_clean s current_time
  if s.config.global_limit ≤ s.global_timestamps.length then
    ((false, some ("Global rate limit exceeded (" ++
        toString s.config.global_limit ++ " msg/s)")), s)
  else
    let limit := effective_limit s.config address
    let address_count := (s.address_timestamps address).length
    if limit ≤ address_count then
      if 0 < s.burst_tokens address then
        let consumed := s.burst_tokens address - 1
        let s := { s with burst_tokens := Function.update s.burst_tokens address consumed }
        ((true, none), rl_record s address current_time address_count limit)
      else
        ((false, some ("Rate limit exceeded for 0x" ++ pyHex3 address ++ " (" ++
            toString limit ++ " msg/s)")), s)
    else
      ((true, none), rl_record s address current_time address_count limit)

/-! ### CAN interface send path (`can_cli/core/can_interface.py`) -/

/-- The Python exceptions the send path can raise, as data: `ValueError` from
`CANMessage.__post_init__`, `PermissionError` for a non-overridable safety
violation, `RuntimeError` for a rate-limit denial. -/
inductive SendError where
  | valueError : String → SendError
  | permissionError : String → SendError
  | runtimeError : String → SendError
deriving DecidableEq, Repr

/-- State of a `BaseCANInterface` (with the mock transport of
`MockCANInterface`, whose `_send_raw` records the message and cannot fail):
optional safety engine, optional rate limiter, the recorded sent messages,
and the `stats` counters. -/
structure CANInterfaceState where
  safety : Option SafetyRules
  rate_limiter : Option RateLimiterState
  sent_messages : List (Nat × List Nat × Int)
  messages_sent : Nat
  messages_received : Nat
  errors : Nat
  safety_violations : Nat

/-- Python `CANMessage.__post_init__` address validation: `0 <= address <= 0x1FFFFFFF`
(the lower bound is automatic for `Nat`). -/
def can_message_address_ok (address : Nat) : Bool :=
  decide (address ≤ 0x1FFFFFFF)

/-- Python `CANMessage.__post_init__` bus validation: `0 <= bus <= 2`. -/
def can_message_bus_ok (bus : Int) : Bool :=
  decide (0 ≤ bus ∧ bus ≤ 2)

/-- The rate-limiting stage and actual transmission at the bottom of
`BaseCANInterface.send`, reached with validation result `vr`. -/
def send_rate_and_transmit (st : CANInterfaceState) (address : Nat)
    (data : List Nat) (bus : Int) (now : ℚ) (vr : ValidationResult) :
    Except SendError ValidationResult × CANInterfaceState :=
  let step2 := fun (st : CANInterfaceState) =>
    (Except.ok vr,
      { st with
        sent_messages := st.sent_messages ++ [(address, data, bus)]
        messages_sent := st.messages_sent + 1 })
  match st.rate_limiter with
  | some rl =>
      let res := check_and_update rl address now
      let st := { st with rate_limiter := some res.2 }
      if res.1.1 then step2 st
      else
        (Except.error (.runtimeError ("Rate limit exceeded: " ++
          (match res.1.2 with | some m => m | none => "None"))), st)
  | none => step2 st

/-- Python `BaseCANInterface.send(address, data, bus, force)` at wall-clock time
`now`, returning the `ValidationResult` (or the raised exception) together
with the successor interface state. -/
def send (st : CANInterfaceState) (address : Nat) (data : List Nat) (bus : Int)
    (force : Bool) (now : ℚ) :
    Except SendError ValidationResult × CANInterfaceState :=
  if ¬ can_message_address_ok address then
    (Except.error (.valueError ("Invalid CAN address: 0x" ++ pyHexUpper address)), st)
  else if ¬ can_message_bus_ok bus then
    (Except.error (.valueError ("Invalid bus number: " ++ toString bus)), st)
  else
    match st.safety, force with
    | some safety, false =>
        let vr := safety.validate_message address data bus
        if vr.passed then send_rate_and_transmit st address data bus now vr
        else
          let st := { st with safety_violations := st.safety_violations + 1 }
          if vr.can_override then send_rate_and_transmit st address data bus now vr
          else
            (Except.error (.permissionError ("Cannot send message: " ++
              (vr.violations.headD ⟨"", "", "", false, true⟩).message)), st)
    | _, _ =>
        send_rate_and_transmit st address data bus now
          { passed := true, violations := [], warnings := [] }

/-! ### Derived send-path predicates -/

/-- The validation result `send` works with: `validate_message` when a safety
engine is present and `force` is not set, otherwise the all-clear default. -/
def send_validation (st : CANInterfaceState) (address : Nat) (data : List Nat)
    (bus : Int) (force : Bool) : ValidationResult :=
  match st.safety, force with
  | some safety, false => safety.validate_message address data bus
  | _, _ => { passed := true, violations := [], warnings := [] }

/-- True when `send` hits the non-overridable validation failure path
(`raise PermissionError`). -/
def validation_blocks (st : CANInterfaceState) (address : Nat) (data : List Nat)
    (bus : Int) (force : Bool) : Bool :=
  match st.safety, force with
  | some safety, false =>
      let vr := safety.validate_message address data bus
      !vr.passed && !vr.can_override
  | _, _ => false

/-- True when `send` hits the rate-limit denial path (`raise RuntimeError`). -/
def rate_limit_blocks (st : CANInterfaceState) (address : Nat) (now : ℚ) : Bool :=
  match st.rate_limiter with
  | some rl => !(check_and_update rl address now).1.1
  | none => false

/-! ### Concrete scenario states used by individual claims -/

/-- Python `RateLimitConfig(per_address_limit=3)`, the C7 scenario config. -/
def scenario_cfg3 : RateLimitConfig := { per_address_limit := 3 }

/-- Fresh limiter for the C7 scenario, constructed at time 0. -/
def scenario_s0 : RateLimiterState := RateLimiterState.init scenario_cfg3 0

/-- First call for `0x100`. -/
def scenario_r1 : (Bool × Option String) × RateLimiterState :=
  check_and_update scenario_s0 0x100 0

/-- Second call for `0x100`. -/
def scenario_r2 : (Bool × Option String) × RateLimiterState :=
  check_and_update scenario_r1.2 0x100 0

/-- Third call for `0x100`. -/
def scenario_r3 : (Bool × Option String) × RateLimiterState :=
  check_and_update scenario_r2.2 0x100 0

/-- Fourth call for `0x100`. -/
def scenario_r4 : (Bool × Option String) × RateLimiterState :=
  check_and_update scenario_r3.2 0x100 0

/-- Python `RateLimitConfig(per_address_limit=3, burst_size=0)`: the C7 scenario with
burst tokens disabled. -/
def scenario_cfg3nb : RateLimitConfig := { per_address_limit := 3, burst_size := 0 }

/-- Fresh burst-free limiter, constructed at time 0. -/
def scenario_a0 : RateLimiterState := RateLimiterState.init scenario_cfg3nb 0

/-- First call for `0x100` (burst-free limiter). -/
def scenario_a1 : (Bool × Option String) × RateLimiterState :=
  check_and_update scenario_a0 0x100 0

/-- Second call for `0x100`. -/
def scenario_a2 : (Bool × Option String) × RateLimiterState :=
  check_and_update scenario_a1.2 0x100 0

/-- Interleaved call for `0x200`. -/
def scenario_b1 : (Bool × Option String) × RateLimiterState :=
  check_and_update scenario_a2.2 0x200 0

/-- Third call for `0x100`. -/
def scenario_a3 : (Bool × Option String) × RateLimiterState :=
  check_and_update scenario_b1.2 0x100 0

/-- Fourth call for `0x100`. -/
def scenario_a4 : (Bool × Option String) × RateLimiterState :=
  check_and_update scenario_a3.2 0x100 0

/-- A limiter state for the C8 counterexample: `per_address_limit=4`, one
timestamp already recorded for `0x100`, and `0x100`'s burst-token count
sitting at 5 (below the cap of 10). -/
def regen_state : RateLimiterState :=
  { config := { per_address_limit := 4 }
    global_timestamps := [0]
    address_timestamps := fun a => if a = 0x100 then [0] else []
    burst_tokens := fun a => if a = 0x100 then 5 else 10
    last_clean := 0 }

/-- The C8 counterexample call. -/
def regen_call : (Bool × Option String) × RateLimiterState :=
  check_and_update regen_state 0x100 0

/-- A limiter whose global limit is 0, so that every call is denied. -/
def deny_all_rl : RateLimiterState :=
  RateLimiterState.init { global_limit := 0 } 0

/-- Interface state with no safety engine and an always-denying limiter. -/
def deny_all_iface : CANInterfaceState :=
  { safety := none
    rate_limiter := some deny_all_rl
    sent_messages := []
    messages_sent := 0
    messages_received := 0
    errors := 0
    safety_violations := 0 }

/-- Interface state with neither safety engine nor rate limiter. -/
def plain_iface : CANInterfaceState :=
  { safety := none
    rate_limiter := none
    sent_messages := []
    messages_sent := 0
    messages_received := 0
    errors := 0
    safety_violations := 0 }

/-! ## Helper lemmas -/

/-- The function `validate_message` unfolded into its three violation blocks. -/
theorem validate_message_eq (self : SafetyRules) (address : Nat) (data : List Nat)
    (bus : Int) :
    self.validate_message address data bus =
      { passed := ((mode_address_check self address).1 ++ length_check data bus ++
          bus_check bus).isEmpty
        violations := (mode_address_check self address).1 ++ length_check data bus ++
          bus_check bus
        warnings := advisory_warnings self.mode
          ((mode_address_check self address).1 ++ length_check data bus ++ bus_check bus)
          (mode_address_check self address).2 data } := rfl

theorem mode_address_check_locked (self : SafetyRules) (address : Nat)
    (h : self.mode = SafetyMode.LOCKED) :
    mode_address_check self address = ([locked_violation], []) := by
  simp [mode_address_check, h]

theorem mode_address_check_blocked (self : SafetyRules) (address : Nat)
    (h1 : self.mode ≠ SafetyMode.LOCKED) (h2 : address ∈ self.blocked_addresses) :
    mode_address_check self address = ([blocked_violation address self.mode], []) := by
  simp [mode_address_check, h1, h2]

theorem mode_address_check_critical (self : SafetyRules) (address : Nat)
    (info : AddressInfo) (h1 : self.mode = SafetyMode.PRODUCTION)
    (h2 : address ∉ self.blocked_addresses)
    (h3 : CRITICAL_ADDRESSES.lookup address = some info) :
    mode_address_check self address = ([critical_violation info], []) := by
  simp [mode_address_check, h1, h2, h3]

theorem mode_address_check_warn (self : SafetyRules) (address : Nat)
    (info : AddressInfo) (h0 : self.mode ≠ SafetyMode.LOCKED)
    (h1 : self.mode ≠ SafetyMode.PRODUCTION) (h2 : address ∉ self.blocked_addresses)
    (h3 : CRITICAL_ADDRESSES.lookup address = some info) :
    mode_address_check self address = ([], [critical_warning address info]) := by
  simp [mode_address_check, h0, h1, h2, h3]

theorem length_check_can20 {data : List Nat} {bus : Int} (h : bus < 3)
    (h8 : 8 < data.length) :
    length_check data bus = [length_violation_can20 data.length] := by
  simp [length_check, h, h8]

theorem length_check_nil20 {data : List Nat} {bus : Int} (h : bus < 3)
    (h8 : ¬ 8 < data.length) : length_check data bus = [] := by
  simp [length_check, h, h8]

theorem length_check_canfd {data : List Nat} {bus : Int} (h : ¬ bus < 3)
    (h64 : 64 < data.length) :
    length_check data bus = [length_violation_canfd data.length] := by
  simp [length_check, h, h64]

theorem length_check_nilfd {data : List Nat} {bus : Int} (h : ¬ bus < 3)
    (h64 : ¬ 64 < data.length) : length_check data bus = [] := by
  simp [length_check, h, h64]

theorem bus_check_nil {bus : Int} (h : bus = 0 ∨ bus = 1 ∨ bus = 2) :
    bus_check bus = [] := by
  simp [bus_check, h]

theorem bus_check_viol {bus : Int} (h : ¬ (bus = 0 ∨ bus = 1 ∨ bus = 2)) :
    bus_check bus = [bus_violation bus] := by
  simp [bus_check, h]

theorem lookup_mem_keys {l : List (Nat × AddressInfo)} {a : Nat} {b : AddressInfo}
    (h : l.lookup a = some b) : a ∈ l.map Prod.fst := by
  induction l with
  | nil => simp [List.lookup] at h
  | cons hd tl ih =>
      rw [show (hd :: tl).lookup a = match a == hd.1 with
            | true => some hd.2 | false => tl.lookup a from rfl] at h
      cases hba : a == hd.1 with
      | true =>
          have ha : a = hd.1 := eq_of_beq hba
          simp [ha]
      | false => simp [hba] at h; simp [ih h]

/-! ## Claims -/

/-- C5: every `ValidationResult` returned by `validate_message` satisfies
`passed == violations.isEmpty()`, its `requires_confirmation` property is the
disjunction of the violations' flags, and its `can_override` property is the
conjunction of the violations' flags, vacuously `true` with no violations. -/
theorem verdict_invariants (r : SafetyRules) (address : Nat) (data : List Nat)
    (bus : Int) :
    (r.validate_message address data bus).passed =
      (r.validate_message address data bus).violations.isEmpty
    ∧ ((r.validate_message address data bus).passed = true ↔
        (r.validate_message address data bus).violations = [])
    ∧ (r.validate_message address data bus).requires_confirmation =
        (r.validate_message address data bus).violations.any
          (fun v => v.requires_confirmation)
    ∧ (r.validate_message address data bus).can_override =
        (r.validate_message address data bus).violations.all
          (fun v => v.can_override)
    ∧ ((r.validate_message address data bus).violations = [] →
        (r.validate_message address data bus).can_override = true) := by
  refine ⟨rfl, ?_, rfl, rfl, ?_⟩
  · rw [validate_message_eq]
    simp [List.isEmpty_iff]
  · intro h
    simp [ValidationResult.can_override, h]

/-- C1: under `LOCKED` mode, `validate_message` always fails with the
`locked_mode` violation (`requires_confirmation=false`, `can_override=false`),
never evaluates the blocked-address or critical-address classifications, and
still runs the structural payload-length and bus-range checks. -/
theorem locked_mode_gate (r : SafetyRules) (address : Nat) (data : List Nat)
    (bus : Int) (h : r.mode = SafetyMode.LOCKED) :
    (r.validate_message address data bus).passed = false
    ∧ locked_violation ∈ (r.validate_message address data bus).violations
    ∧ locked_violation.requires_confirmation = false
    ∧ locked_violation.can_override = false
    ∧ (∀ v ∈ (r.validate_message address data bus).violations,
        v.rule ≠ "blocked_address" ∧ v.rule ≠ "critical_message")
    ∧ ((∃ v ∈ (r.validate_message address data bus).violations,
          v.rule = "invalid_data_length")
        ↔ ((bus < 3 ∧ 8 < data.length) ∨ (3 ≤ bus ∧ 64 < data.length)))
    ∧ ((∃ v ∈ (r.validate_message address data bus).violations, v.rule = "invalid_bus")
        ↔ ¬ (bus = 0 ∨ bus = 1 ∨ bus = 2)) := by
  rw [validate_message_eq, mode_address_check_locked r address h]
  by_cases hbv : bus = 0 ∨ bus = 1 ∨ bus = 2
  · rw [bus_check_nil hbv]
    have hb3 : bus < 3 := by omega
    by_cases h8 : 8 < data.length
    · rw [length_check_can20 hb3 h8]
      simp [locked_violation, length_violation_can20, hbv, hb3, h8]
    · rw [length_check_nil20 hb3 h8]
      simp [locked_violation, hbv, hb3, h8]
  · rw [bus_check_viol hbv]
    by_cases hb3 : bus < 3
    · by_cases h8 : 8 < data.length
      · rw [length_check_can20 hb3 h8]
        simp [locked_violation, length_violation_can20, bus_violation, hbv, hb3, h8]
      · rw [length_check_nil20 hb3 h8]
        simp [locked_violation, bus_violation, hbv, hb3, h8]
    · by_cases h64 : 64 < data.length
      · rw [length_check_canfd hb3 h64]
        simp [locked_violation, length_violation_canfd, bus_violation, hbv, hb3, h64]
        omega
      · rw [length_check_nilfd hb3 h64]
        simp [locked_violation, bus_violation, hbv, hb3, h64]

/-- Witness for C1 at mode `LOCKED`, address `0x123`, a 9-byte payload, bus 0. -/
theorem locked_mode_gate_witness :
    ((SafetyRules.mk_default SafetyMode.LOCKED).validate_message 0x123
        (List.replicate 9 1) 0).passed = false
    ∧ locked_violation ∈ ((SafetyRules.mk_default SafetyMode.LOCKED).validate_message
        0x123 (List.replicate 9 1) 0).violations
    ∧ (∃ v ∈ ((SafetyRules.mk_default SafetyMode.LOCKED).validate_message 0x123
        (List.replicate 9 1) 0).violations, v.rule = "invalid_data_length") := by
  have h := locked_mode_gate (SafetyRules.mk_default SafetyMode.LOCKED) 0x123
    (List.replicate 9 1) 0 rfl
  exact ⟨h.1, h.2.1, h.2.2.2.2.2.1.mpr (by norm_num)⟩


/-- Every violation produced by the length check carries the
`invalid_data_length` rule, `high` severity, and `can_override=false`. -/
theorem length_check_fields : ∀ v ∈ length_check data bus,
    v.rule = "invalid_data_length" ∧ v.severity = "high" ∧
    v.requires_confirmation = false ∧ v.can_override = false := by
  unfold length_check
  split <;> split <;> simp [length_violation_can20, length_violation_canfd]

/-- Every violation produced by the bus check carries the `invalid_bus` rule. -/
theorem bus_check_fields : ∀ v ∈ bus_check bus,
    v.rule = "invalid_bus" ∧ v.severity = "high" ∧
    v.requires_confirmation = false ∧ v.can_override = false := by
  unfold bus_check
  split <;> simp [bus_violation]

/-- Every violation produced by the mode/address chain carries one of the
three classification rules. -/
theorem mode_address_check_rules (self : SafetyRules) (address : Nat) :
    ∀ v ∈ (mode_address_check self address).1,
      v.rule = "locked_mode" ∨ v.rule = "blocked_address" ∨
      v.rule = "critical_message" := by
  unfold mode_address_check
  split
  · simp [locked_violation]
  · split
    · simp [blocked_violation]
    · split
      · split <;> simp [critical_violation]
      · simp

/-- The advisory block only ever appends warnings. -/
theorem advisory_warnings_mem {w : String} {mode : SafetyMode}
    {violations : List SafetyViolation} {warnings : List String} {data : List Nat}
    (h : w ∈ warnings) : w ∈ advisory_warnings mode violations warnings data := by
  unfold advisory_warnings
  split
  · simp [h]
  · split
    · split <;> simp [h]
    · exact h

/-- C2 (Production side): a policy-table address that is not blocked yields
exactly one `critical_message` violation under `PRODUCTION`, with
`requires_confirmation=true`, `can_override=true`, severity from the policy
entry, and no warnings; under any other mode in which the address is not
blocked, no `critical_message` violation is emitted and the critical warning
string is. -/
theorem critical_address_classification (mode : SafetyMode) (address : Nat)
    (info : AddressInfo) (data : List Nat) (bus : Int)
    (hlook : CRITICAL_ADDRESSES.lookup address = some info)
    (hnb : address ∉ (SafetyRules.mk_default mode).blocked_addresses) :
    (mode = SafetyMode.PRODUCTION →
      ((SafetyRules.mk_default mode).validate_message address data bus).violations.filter
          (fun v => v.rule == "critical_message") = [critical_violation info]
      ∧ (critical_violation info).requires_confirmation = true
      ∧ (critical_violation info).can_override = true
      ∧ (critical_violation info).severity = info.severity
      ∧ ((SafetyRules.mk_default mode).validate_message address data bus).warnings = [])
    ∧ (mode ≠ SafetyMode.PRODUCTION →
      (∀ v ∈ ((SafetyRules.mk_default mode).validate_message address data bus).violations,
          v.rule ≠ "critical_message")
      ∧ critical_warning address info ∈
          ((SafetyRules.mk_default mode).validate_message address data bus).warnings) := by
  constructor
  · intro hp
    subst hp
    have hmac := mode_address_check_critical (SafetyRules.mk_default SafetyMode.PRODUCTION)
      address info rfl hnb hlook
    rw [validate_message_eq, hmac]
    refine ⟨?_, rfl, rfl, rfl, ?_⟩
    · simp only [List.filter_append, List.cons_append, List.nil_append, List.filter_cons]
      rw [List.filter_eq_nil_iff.mpr, List.filter_eq_nil_iff.mpr]
      · simp [critical_violation]
      · intro v hv
        simp [(bus_check_fields v hv).1]
      · intro v hv
        simp [(length_check_fields v hv).1]
    · simp [advisory_warnings]
  · intro hnp
    have hkeys := lookup_mem_keys hlook
    have hnl : mode ≠ SafetyMode.LOCKED := by
      intro hl
      subst hl
      exact hnb (by simpa [SafetyRules.mk_default, DEFAULT_BLOCKED] using hkeys)
    have hmac := mode_address_check_warn (SafetyRules.mk_default mode) address info
      hnl hnp hnb hlook
    rw [validate_message_eq, hmac]
    constructor
    · intro v hv
      simp only [List.nil_append, List.mem_append] at hv
      rcases hv with hv | hv
      · simp [(length_check_fields v hv).1]
      · simp [(bus_check_fields v hv).1]
    · exact advisory_warnings_mem (by simp)

/-- Witness for C2: address `0x2E4` (Steering Assist) under `PRODUCTION`, and
address `0x326` (Cruise Control) under `TESTING`. -/
theorem critical_address_classification_witness :
    (((SafetyRules.mk_default SafetyMode.PRODUCTION).validate_message 0x2E4 [1, 2]
        0).violations.filter (fun v => v.rule == "critical_message")
      = [critical_violation ⟨"Steering Assist", "critical", "Lane keeping assist command"⟩]
    ∧ ((SafetyRules.mk_default SafetyMode.PRODUCTION).validate_message 0x2E4 [1, 2]
        0).warnings = [])
    ∧ ((∀ v ∈ ((SafetyRules.mk_default SafetyMode.TESTING).validate_message 0x326 [1, 2]
          0).violations, v.rule ≠ "critical_message")
    ∧ critical_warning 0x326 ⟨"Cruise Control", "high", "ACC/Cruise commands"⟩ ∈
        ((SafetyRules.mk_default SafetyMode.TESTING).validate_message 0x326 [1, 2]
          0).warnings) := by
  have h1 := (critical_address_classification SafetyMode.PRODUCTION 0x2E4
    ⟨"Steering Assist", "critical", "Lane keeping assist command"⟩ [1, 2] 0
    (by decide) (by decide)).1 rfl
  have h2 := (critical_address_classification SafetyMode.TESTING 0x326
    ⟨"Cruise Control", "high", "ACC/Cruise commands"⟩ [1, 2] 0
    (by decide) (by decide)).2 (by decide)
  exact ⟨⟨h1.1, h1.2.2.2.2⟩, h2⟩

/-- C3 counterexample: with a configured blocked set containing `0x326`
(policy severity `"high"`), the `blocked_address` violation's severity is the
hard-coded `"critical"`, not the policy severity — the code never consults the
policy entry's severity on this path. -/
theorem blocked_severity_counterexample :
    (CRITICAL_ADDRESSES.lookup 0x326).map AddressInfo.severity = some "high"
    ∧ ((⟨SafetyMode.PRODUCTION, [0x326]⟩ : SafetyRules).validate_message 0x326 [] 0).violations
        = [blocked_violation 0x326 SafetyMode.PRODUCTION]
    ∧ (blocked_violation 0x326 SafetyMode.PRODUCTION).severity = "critical"
    ∧ "critical" ≠ "high" := by decide

/-- C3 as amended: a blocked address (mode not `LOCKED`) yields a
`blocked_address` violation first in the list, with severity always
`"critical"` regardless of the policy entry, `can_override = (mode ==
DEVELOPMENT)`, and `requires_confirmation = false`; and it is the only
`blocked_address` violation in the result. -/
theorem blocked_address_check (r : SafetyRules) (address : Nat) (data : List Nat)
    (bus : Int) (hm : r.mode ≠ SafetyMode.LOCKED)
    (hb : address ∈ r.blocked_addresses) :
    (r.validate_message address data bus).violations.head?
        = some (blocked_violation address r.mode)
    ∧ (blocked_violation address r.mode).severity = "critical"
    ∧ (blocked_violation address r.mode).requires_confirmation = false
    ∧ (blocked_violation address r.mode).can_override
        = decide (r.mode = SafetyMode.DEVELOPMENT)
    ∧ (r.validate_message address data bus).violations.filter
        (fun v => v.rule == "blocked_address") = [blocked_violation address r.mode]
    ∧ (r.validate_message address data bus).passed = false := by
  rw [validate_message_eq, mode_address_check_blocked r address hm hb]
  refine ⟨rfl, rfl, rfl, rfl, ?_, rfl⟩
  simp only [List.filter_append, List.cons_append, List.nil_append, List.filter_cons]
  rw [List.filter_eq_nil_iff.mpr, List.filter_eq_nil_iff.mpr]
  · simp [blocked_violation]
  · intro v hv
    simp [(bus_check_fields v hv).1]
  · intro v hv
    simp [(length_check_fields v hv).1]

/-- Witness for the amended C3: address `0x180` blocked under `PRODUCTION`. -/
theorem blocked_address_check_witness :
    ((SafetyRules.mk_default SafetyMode.PRODUCTION).validate_message 0x180 [1] 0).violations.head?
        = some (blocked_violation 0x180 SafetyMode.PRODUCTION)
    ∧ (blocked_violation 0x180 SafetyMode.PRODUCTION).severity = "critical"
    ∧ (blocked_violation 0x180 SafetyMode.PRODUCTION).can_override = false
    ∧ ((SafetyRules.mk_default SafetyMode.PRODUCTION).validate_message 0x180 [1] 0).passed
        = false := by
  have h := blocked_address_check (SafetyRules.mk_default SafetyMode.PRODUCTION) 0x180 [1] 0
    (by decide) (by decide)
  exact ⟨h.1, h.2.1, by decide, h.2.2.2.2.2⟩

/-- C4: on a real classic-CAN bus (0, 1 or 2), a payload longer than 8 bytes
yields the `invalid_data_length` violation (severity `high`,
`can_override=false`) in every mode, and a payload of at most 8 bytes never
yields a length violation. -/
theorem classic_length_limit (r : SafetyRules) (address : Nat) (data : List Nat)
    (bus : Int) (hbus : bus = 0 ∨ bus = 1 ∨ bus = 2) :
    (8 < data.length →
      length_violation_can20 data.length ∈ (r.validate_message address data bus).violations
      ∧ (length_violation_can20 data.length).rule = "invalid_data_length"
      ∧ (length_violation_can20 data.length).severity = "high"
      ∧ (length_violation_can20 data.length).can_override = false
      ∧ (r.validate_message address data bus).passed = false)
    ∧ (data.length ≤ 8 →
      ∀ v ∈ (r.validate_message address data bus).violations,
        v.rule ≠ "invalid_data_length") := by
  have hb3 : bus < 3 := by omega
  constructor
  · intro h8
    rw [validate_message_eq, length_check_can20 hb3 h8]
    refine ⟨by simp, rfl, rfl, rfl, by simp⟩
  · intro h8
    rw [validate_message_eq, length_check_nil20 hb3 (by omega)]
    intro v hv
    simp only [List.append_nil, List.mem_append] at hv
    rcases hv with hv | hv
    · rcases mode_address_check_rules r address v hv with h | h | h <;> simp [h]
    · simp [(bus_check_fields v hv).1]

/-- Witness for C4: 9-byte payload on bus 0 under `DEVELOPMENT`. -/
theorem classic_length_limit_witness :
    length_violation_can20 9 ∈ ((SafetyRules.mk_default SafetyMode.DEVELOPMENT).validate_message
        0x123 (List.replicate 9 1) 0).violations
    ∧ ((SafetyRules.mk_default SafetyMode.DEVELOPMENT).validate_message 0x123
        (List.replicate 9 1) 0).passed = false := by
  have h := (classic_length_limit (SafetyRules.mk_default SafetyMode.DEVELOPMENT) 0x123
    (List.replicate 9 1) 0 (Or.inl rfl)).1 (by norm_num)
  exact ⟨by simpa using h.1, h.2.2.2.2⟩


/-- C10: the classic/FD length threshold is decided solely by `bus < 3`.
For `bus ≥ 3` (an invalid bus) the 64-byte FD limit applies: a length
violation appears exactly for payloads over 64 bytes, so lengths 9–64 yield
the `invalid_bus` violation as the only structural violation and no
`invalid_data_length`; for `bus < 0` the 8-byte classic limit applies in
addition to `invalid_bus`. -/
theorem fd_threshold_by_bus (r : SafetyRules) (address : Nat) (data : List Nat)
    (bus : Int) :
    (3 ≤ bus →
      ((∃ v ∈ (r.validate_message address data bus).violations,
          v.rule = "invalid_data_length") ↔ 64 < data.length)
      ∧ (data.length ≤ 64 →
          (r.validate_message address data bus).violations.filter
              (fun v => v.rule == "invalid_data_length") = []
          ∧ (r.validate_message address data bus).violations.filter
              (fun v => v.rule == "invalid_bus") = [bus_violation bus]))
    ∧ (bus < 0 →
      ((∃ v ∈ (r.validate_message address data bus).violations,
          v.rule = "invalid_data_length") ↔ 8 < data.length)
      ∧ bus_violation bus ∈ (r.validate_message address data bus).violations) := by
  constructor
  · intro hb
    have hb3 : ¬ bus < 3 := by omega
    have hbv : ¬ (bus = 0 ∨ bus = 1 ∨ bus = 2) := by omega
    constructor
    · by_cases h64 : 64 < data.length
      · rw [validate_message_eq, length_check_canfd hb3 h64, bus_check_viol hbv]
        simp only [iff_true_intro h64, iff_true]
        exact ⟨length_violation_canfd data.length, by simp, rfl⟩
      · rw [validate_message_eq, length_check_nilfd hb3 h64, bus_check_viol hbv]
        simp only [iff_false_intro h64, iff_false]
        intro hex
        rcases hex with ⟨v, hv, hrule⟩
        simp only [List.append_nil, List.mem_append] at hv
        rcases hv with hv | hv
        · rcases mode_address_check_rules r address v hv with h | h | h <;>
            simp [h] at hrule
        · simp only [List.mem_singleton] at hv
          rw [hv] at hrule
          simp [bus_violation] at hrule
    · intro h64
      rw [validate_message_eq, length_check_nilfd hb3 (by omega), bus_check_viol hbv]
      constructor
      · simp only [List.append_nil, List.filter_append]
        rw [List.filter_eq_nil_iff.mpr, List.filter_eq_nil_iff.mpr]
        · simp
        · intro v hv
          simp only [List.mem_singleton] at hv
          simp [hv, bus_violation]
        · intro v hv
          rcases mode_address_check_rules r address v hv with h | h | h <;> simp [h]
      · simp only [List.append_nil, List.filter_append]
        rw [List.filter_eq_nil_iff.mpr]
        · simp only [List.nil_append, List.filter_cons]
          simp [bus_violation]
        · intro v hv
          rcases mode_address_check_rules r address v hv with h | h | h <;> simp [h]
  · intro hb
    have hb3 : bus < 3 := by omega
    have hbv : ¬ (bus = 0 ∨ bus = 1 ∨ bus = 2) := by omega
    constructor
    · by_cases h8 : 8 < data.length
      · rw [validate_message_eq, length_check_can20 hb3 h8, bus_check_viol hbv]
        simp only [iff_true_intro h8, iff_true]
        exact ⟨length_violation_can20 data.length, by simp, rfl⟩
      · rw [validate_message_eq, length_check_nil20 hb3 h8, bus_check_viol hbv]
        simp only [iff_false_intro h8, iff_false]
        intro hex
        rcases hex with ⟨v, hv, hrule⟩
        simp only [List.append_nil, List.mem_append] at hv
        rcases hv with hv | hv
        · rcases mode_address_check_rules r address v hv with h | h | h <;>
            simp [h] at hrule
        · simp only [List.mem_singleton] at hv
          rw [hv] at hrule
          simp [bus_violation] at hrule
    · rw [validate_message_eq, bus_check_viol hbv]
      simp

/-- Witness for C10: a 9-byte payload on (invalid) bus 3 and on bus -1. -/
theorem fd_threshold_by_bus_witness :
    (((SafetyRules.mk_default SafetyMode.DEVELOPMENT).validate_message 0x123
        (List.replicate 9 1) 3).violations.filter
        (fun v => v.rule == "invalid_data_length") = []
      ∧ ((SafetyRules.mk_default SafetyMode.DEVELOPMENT).validate_message 0x123
        (List.replicate 9 1) 3).violations.filter
        (fun v => v.rule == "invalid_bus") = [bus_violation 3])
    ∧ ((∃ v ∈ ((SafetyRules.mk_default SafetyMode.DEVELOPMENT).validate_message 0x123
        (List.replicate 9 1) (-1)).violations, v.rule = "invalid_data_length")
      ∧ bus_violation (-1) ∈ ((SafetyRules.mk_default SafetyMode.DEVELOPMENT).validate_message
        0x123 (List.replicate 9 1) (-1)).violations) := by
  have h3 := (fd_threshold_by_bus (SafetyRules.mk_default SafetyMode.DEVELOPMENT) 0x123
    (List.replicate 9 1) 3).1 (by norm_num)
  have hneg := (fd_threshold_by_bus (SafetyRules.mk_default SafetyMode.DEVELOPMENT) 0x123
    (List.replicate 9 1) (-1)).2 (by norm_num)
  exact ⟨h3.2 (by norm_num), hneg.1.mpr (by norm_num), hneg.2⟩


/-! ### Rate limiter lemmas -/

theorem rl_record_global (s : RateLimiterState) (a : Nat) (t : ℚ) (c l : Nat) :
    (rl_record s a t c l).global_timestamps = s.global_timestamps ++ [t] := by
  unfold rl_record
  split <;> rfl

theorem rl_record_addr (s : RateLimiterState) (a : Nat) (t : ℚ) (c l : Nat) :
    (rl_record s a t c l).address_timestamps a = s.address_timestamps a ++ [t] := by
  unfold rl_record
  split <;> simp [Function.update_same]

theorem rl_record_tokens (s : RateLimiterState) (a : Nat) (t : ℚ) (c l : Nat) :
    (rl_record s a t c l).burst_tokens a =
      if (c : ℚ) < (l : ℚ) / 2 then min (s.burst_tokens a + 1) s.config.burst_size
      else s.burst_tokens a := by
  unfold rl_record
  split <;> simp_all [Function.update_same]

/-- C8 as amended: on an allow decided by the under-limit branch, the
timestamp is appended to both windows and the burst-token count is
incremented (capped at `burst_size`) exactly when the address window size
BEFORE the append — not after it — is strictly below `effectiveLimit / 2`. -/
theorem under_limit_record (s : RateLimiterState) (address : Nat) (t : ℚ)
    (hg : (maybe_clean s t).global_timestamps.length <
        (maybe_clean s t).config.global_limit)
    (ha : ((maybe_clean s t).address_timestamps address).length <
        effective_limit (maybe_clean s t).config address) :
    (check_and_update s address t).1 = (true, none)
    ∧ (check_and_update s address t).2.global_timestamps
        = (maybe_clean s t).global_timestamps ++ [t]
    ∧ (check_and_update s address t).2.address_timestamps address
        = (maybe_clean s t).address_timestamps address ++ [t]
    ∧ (check_and_update s address t).2.burst_tokens address
        = (if (((maybe_clean s t).address_timestamps address).length : ℚ)
              < (effective_limit (maybe_clean s t).config address : ℚ) / 2
           then min ((maybe_clean s t).burst_tokens address + 1)
              (maybe_clean s t).config.burst_size
           else (maybe_clean s t).burst_tokens address) := by
  have h1 : ¬ ((maybe_clean s t).config.global_limit ≤
      (maybe_clean s t).global_timestamps.length) := by omega
  have h2 : ¬ (effective_limit (maybe_clean s t).config address ≤
      ((maybe_clean s t).address_timestamps address).length) := by omega
  have heq : check_and_update s address t
      = ((true, none), rl_record (maybe_clean s t) address t
          ((maybe_clean s t).address_timestamps address).length
          (effective_limit (maybe_clean s t).config address)) := by
    unfold check_and_update
    simp only [if_neg h1, if_neg h2]
  rw [heq, rl_record_global, rl_record_addr, rl_record_tokens]
  exact ⟨rfl, rfl, rfl, rfl⟩

/-- Witness for the amended C8: a fresh default limiter at time 0. -/
theorem under_limit_record_witness :
    (check_and_update (RateLimiterState.init {} 0) 0x100 0).1 = (true, none)
    ∧ (check_and_update (RateLimiterState.init {} 0) 0x100 0).2.global_timestamps = [0]
    ∧ (check_and_update (RateLimiterState.init {} 0) 0x100 0).2.address_timestamps 0x100
        = [0]
    ∧ (check_and_update (RateLimiterState.init {} 0) 0x100 0).2.burst_tokens 0x100
        = 10 := by
  have hmc : maybe_clean (RateLimiterState.init {} 0) 0 = RateLimiterState.init {} 0 := by
    unfold maybe_clean
    rw [if_neg]
    norm_num [RateLimiterState.init]
  have h := under_limit_record (RateLimiterState.init {} 0) 0x100 0
    (by rw [hmc]; norm_num [RateLimiterState.init])
    (by rw [hmc]; norm_num [RateLimiterState.init, effective_limit, rl_critical_addresses])
  refine ⟨h.1, ?_, ?_, ?_⟩
  · rw [h.2.1, hmc]
    rfl
  · rw [h.2.2.1, hmc]
    rfl
  · rw [h.2.2.2, hmc]
    norm_num [RateLimiterState.init, effective_limit, rl_critical_addresses]

/-- C8 counterexample: `per_address_limit=4`, one timestamp already in the
`0x100` window, tokens at 5.  The call is allowed with a pre-append count of
1 (`1 < 4/2`), so the code increments the token count to 6 — although the
post-append window size is 2, which is NOT strictly below `4/2`, so the
claim's "after the append" condition says the count must stay 5. -/
theorem burst_regen_counterexample :
    regen_call.1 = (true, none)
    ∧ (regen_state.address_timestamps 0x100).length = 1
    ∧ effective_limit regen_state.config 0x100 = 4
    ∧ ¬ ((((regen_state.address_timestamps 0x100).length + 1 : ℕ) : ℚ) < (4 : ℚ) / 2)
    ∧ regen_state.burst_tokens 0x100 = 5
    ∧ regen_call.2.burst_tokens 0x100 = 6 := by
  refine ⟨?_, rfl, by norm_num [effective_limit, rl_critical_addresses, regen_state], ?_, rfl, ?_⟩
  · norm_num [regen_call, regen_state, check_and_update, maybe_clean, clean_old_timestamps,
      effective_limit, rl_critical_addresses, rl_record, Function.update]
  · norm_num [regen_state]
  · norm_num [regen_call, regen_state, check_and_update, maybe_clean, clean_old_timestamps,
      effective_limit, rl_critical_addresses, rl_record, Function.update]

/-- C7 counterexample: with `per_address_limit=3` on a fresh limiter (burst
capacity at its default of 10), the first three calls for `0x100` are
allowed, and the FOURTH call is also allowed — it consumes a burst token
(10 → 9) — contradicting the claim that it is denied. -/
theorem fourth_call_counterexample :
    scenario_r1.1.1 = true ∧ scenario_r2.1.1 = true ∧ scenario_r3.1.1 = true
    ∧ scenario_r4.1 = (true, none)
    ∧ scenario_r4.2.burst_tokens 0x100 = 9 := by
  norm_num [scenario_r4, scenario_r3, scenario_r2, scenario_r1, scenario_s0, scenario_cfg3,
    check_and_update, maybe_clean, clean_old_timestamps, effective_limit,
    rl_critical_addresses, rl_record, RateLimiterState.init, Function.update]

/-- C7 as amended: with `per_address_limit=3` AND `burst_size=0` on a fresh
limiter, three calls for `0x100` within one window are allowed, the fourth is
denied with the per-address-limit reason, and an interleaved call for `0x200`
is allowed. -/
theorem fourth_call_amended :
    scenario_a1.1 = (true, none) ∧ scenario_a2.1 = (true, none)
    ∧ scenario_b1.1 = (true, none) ∧ scenario_a3.1 = (true, none)
    ∧ scenario_a4.1 = (false, some "Rate limit exceeded for 0x100 (3 msg/s)") := by
  norm_num [scenario_a4, scenario_a3, scenario_b1, scenario_a2, scenario_a1, scenario_a0,
    scenario_cfg3nb, check_and_update, maybe_clean, clean_old_timestamps, effective_limit,
    rl_critical_addresses, rl_record, RateLimiterState.init, Function.update, pyHex3,
    pyHexUpper, hexCharsUpper, hexCharsUpperAux, hexDigitUpper]
  decide


/-! ### Send path lemmas -/

/-- When the rate limiter denies, `send_rate_and_transmit` raises (as data)
and records nothing. -/
theorem srt_deny (st : CANInterfaceState) (address : Nat) (data : List Nat)
    (bus : Int) (now : ℚ) (vr : ValidationResult) (rl : RateLimiterState)
    (hrl : st.rate_limiter = some rl)
    (hd : (check_and_update rl address now).1.1 = false) :
    (send_rate_and_transmit st address data bus now vr).2.sent_messages
        = st.sent_messages
    ∧ (send_rate_and_transmit st address data bus now vr).1.isOk = false := by
  unfold send_rate_and_transmit
  rw [hrl]
  simp [hd, Except.isOk, Except.toBool]

/-- Outcomes of the rate-limit/transmit stage as a function of
`rate_limit_blocks`. -/
theorem srt_outcome (st : CANInterfaceState) (address : Nat) (data : List Nat)
    (bus : Int) (now : ℚ) (vr : ValidationResult) :
    (rate_limit_blocks st address now = false →
      (send_rate_and_transmit st address data bus now vr).1 = Except.ok vr)
    ∧ (rate_limit_blocks st address now = true →
      ∃ m, (send_rate_and_transmit st address data bus now vr).1
        = Except.error (SendError.runtimeError m)) := by
  unfold send_rate_and_transmit rate_limit_blocks
  cases hst : st.rate_limiter with
  | none => simp
  | some rl =>
      cases hc : (check_and_update rl address now).1.1 <;> simp [hc]

/-- C6: in the orchestrated send path a rate-limiter denial always prevents
transmission — whatever the `force` flag and the rule-engine verdict, a
denial leaves `sent_messages` untouched and the result is an error — and the
limiter is only consulted after rule evaluation: a non-overridable validation
failure returns before the limiter state is ever touched. -/
theorem rate_limit_gates_send (st : CANInterfaceState) (address : Nat)
    (data : List Nat) (bus : Int) (force : Bool) (now : ℚ) (rl : RateLimiterState)
    (hrl : st.rate_limiter = some rl) :
    ((check_and_update rl address now).1.1 = false →
      (send st address data bus force now).2.sent_messages = st.sent_messages
      ∧ (send st address data bus force now).1.isOk = false)
    ∧ (∀ safety, st.safety = some safety → force = false →
        (safety.validate_message address data bus).passed = false →
        (safety.validate_message address data bus).can_override = false →
        (send st address data bus force now).2.rate_limiter = st.rate_limiter) := by
  constructor
  · intro hd
    unfold send
    split
    · exact ⟨rfl, rfl⟩
    · split
      · exact ⟨rfl, rfl⟩
      · split
        · rename_i safety heq
          dsimp only
          split
          · exact srt_deny st address data bus now _ rl hrl hd
          · split
            · exact srt_deny _ address data bus now _ rl hrl hd
            · exact ⟨rfl, rfl⟩
        · exact srt_deny st address data bus now _ rl hrl hd
  · intro safety hsafety hforce hpass hover
    subst hforce
    unfold send
    split
    · rfl
    · split
      · rfl
      · simp only [hsafety]
        rw [if_neg (by simp [hpass]), if_neg (by simp [hover])]

/-- Witness for C6: an always-denying limiter blocks the send. -/
theorem rate_limit_gates_send_witness :
    (send deny_all_iface 0x123 [1] 0 false 0).2.sent_messages = []
    ∧ (send deny_all_iface 0x123 [1] 0 false 0).1.isOk = false := by
  have h := (rate_limit_gates_send deny_all_iface 0x123 [1] 0 false 0 deny_all_rl rfl).1
    (by norm_num [deny_all_rl, RateLimiterState.init, check_and_update, maybe_clean,
        clean_old_timestamps, effective_limit, rl_critical_addresses])
  exact ⟨h.1, h.2⟩

/-- C9 counterexample: for a perfectly well-formed frame (valid address and
bus) a rate-limit rejection is surfaced by `send` as a raised `RuntimeError`
(modelled as `Except.error`), not returned as a data value. -/
theorem raise_on_denial_counterexample :
    can_message_address_ok 0x123 = true
    ∧ can_message_bus_ok 0 = true
    ∧ (send deny_all_iface 0x123 [1] 0 false 0).1
        = Except.error (SendError.runtimeError
            "Rate limit exceeded: Global rate limit exceeded (0 msg/s)") := by
  refine ⟨by decide, by decide, ?_⟩
  norm_num [send, deny_all_iface, deny_all_rl, send_rate_and_transmit, check_and_update,
    maybe_clean, clean_old_timestamps, effective_limit, rl_critical_addresses,
    RateLimiterState.init, can_message_address_ok, can_message_bus_ok]
  decide

/-- C9 as amended: `validate_message` and `check_and_update` are total and
report rejections as data, but `send` raises: for well-formed inputs the
outcome is `Except.ok` exactly when neither gate blocks, a `PermissionError`
exactly on a non-overridable validation failure, and a `RuntimeError` exactly
on a rate-limit denial reached after validation. -/
theorem send_outcome_characterization (st : CANInterfaceState) (address : Nat)
    (data : List Nat) (bus : Int) (force : Bool) (now : ℚ)
    (haddr : can_message_address_ok address = true)
    (hbus : can_message_bus_ok bus = true) :
    ((send st address data bus force now).1
        = Except.ok (send_validation st address data bus force)
      ↔ (validation_blocks st address data bus force = false
          ∧ rate_limit_blocks st address now = false))
    ∧ ((∃ m, (send st address data bus force now).1
          = Except.error (SendError.permissionError m))
      ↔ validation_blocks st address data bus force = true)
    ∧ ((∃ m, (send st address data bus force now).1
          = Except.error (SendError.runtimeError m))
      ↔ (validation_blocks st address data bus force = false
          ∧ rate_limit_blocks st address now = true)) := by
  have hsend : send st address data bus force now
      = (match st.safety, force with
        | some safety, false =>
            let vr := safety.validate_message address data bus
            if vr.passed then send_rate_and_transmit st address data bus now vr
            else
              let st2 := { st with safety_violations := st.safety_violations + 1 }
              if vr.can_override then send_rate_and_transmit st2 address data bus now vr
              else
                (Except.error (SendError.permissionError ("Cannot send message: " ++
                  (vr.violations.headD ⟨"", "", "", false, true⟩).message)), st2)
        | _, _ =>
            send_rate_and_transmit st address data bus now
              { passed := true, violations := [], warnings := [] }) := by
    unfold send
    rw [if_neg (by simp [haddr]), if_neg (by simp [hbus])]
  rcases hsafety : st.safety with _ | safety
  · cases force
    · -- no safety engine, force = false
      rw [hsend]
      simp only [hsafety]
      have hvb : validation_blocks st address data bus false = false := by
        unfold validation_blocks
        simp [hsafety]
      have hsv : send_validation st address data bus false
          = { passed := true, violations := [], warnings := [] } := by
        unfold send_validation
        simp [hsafety]
      cases hrb : rate_limit_blocks st address now
      · have hok := (srt_outcome st address data bus now
          { passed := true, violations := [], warnings := [] }).1 hrb
        refine ⟨by simp [hok, hsv, hvb], ?_, by simp [hok, hrb]⟩
        rw [hvb]
        simp [hok]
      · obtain ⟨m, hm⟩ := (srt_outcome st address data bus now
          { passed := true, violations := [], warnings := [] }).2 hrb
        refine ⟨by simp [hm, hrb], ?_, by simp [hm, hvb, hrb]⟩
        rw [hvb]
        simp [hm]
    · -- no safety engine, force = true
      rw [hsend]
      simp only [hsafety]
      have hvb : validation_blocks st address data bus true = false := by
        unfold validation_blocks
        simp [hsafety]
      have hsv : send_validation st address data bus true
          = { passed := true, violations := [], warnings := [] } := by
        unfold send_validation
        simp [hsafety]
      cases hrb : rate_limit_blocks st address now
      · have hok := (srt_outcome st address data bus now
          { passed := true, violations := [], warnings := [] }).1 hrb
        refine ⟨by simp [hok, hsv, hvb], ?_, by simp [hok, hrb]⟩
        rw [hvb]
        simp [hok]
      · obtain ⟨m, hm⟩ := (srt_outcome st address data bus now
          { passed := true, violations := [], warnings := [] }).2 hrb
        refine ⟨by simp [hm, hrb], ?_, by simp [hm, hvb, hrb]⟩
        rw [hvb]
        simp [hm]
  · cases force
    · -- safety engine present, force = false
      rw [hsend]
      simp only [hsafety]
      have hsv : send_validation st address data bus false
          = safety.validate_message address data bus := by
        unfold send_validation
        simp [hsafety]
      by_cases hp : (safety.validate_message address data bus).passed
      · have hvb : validation_blocks st address data bus false = false := by
          unfold validation_blocks
          simp [hsafety, hp]
        rw [if_pos hp]
        cases hrb : rate_limit_blocks st address now
        · have hok := (srt_outcome st address data bus now
            (safety.validate_message address data bus)).1 hrb
          refine ⟨by simp [hok, hsv, hvb], ?_, by simp [hok, hrb]⟩
          rw [hvb]
          simp [hok]
        · obtain ⟨m, hm⟩ := (srt_outcome st address data bus now
            (safety.validate_message address data bus)).2 hrb
          refine ⟨by simp [hm, hrb], ?_, by simp [hm, hvb, hrb]⟩
          rw [hvb]
          simp [hm]
      · by_cases ho : (safety.validate_message address data bus).can_override
        · have hvb : validation_blocks st address data bus false = false := by
            unfold validation_blocks
            simp [hsafety, ho]
          rw [if_neg hp, if_pos ho]
          have hrb_eq : rate_limit_blocks
              { st with safety := some safety, safety_violations := st.safety_violations + 1 }
              address now
              = rate_limit_blocks st address now := rfl
          cases hrb : rate_limit_blocks st address now
          · have hok := (srt_outcome
              { st with safety := some safety, safety_violations := st.safety_violations + 1 }
              address data bus now (safety.validate_message address data bus)).1
              (hrb_eq.trans hrb)
            refine ⟨by simp [hok, hsv, hvb], ?_, by simp [hok, hrb]⟩
            rw [hvb]
            simp [hok]
          · obtain ⟨m, hm⟩ := (srt_outcome
              { st with safety := some safety, safety_violations := st.safety_violations + 1 }
              address data bus now (safety.validate_message address data bus)).2
              (hrb_eq.trans hrb)
            refine ⟨by simp [hm, hrb], ?_, by simp [hm, hvb, hrb]⟩
            rw [hvb]
            simp [hm]
        · have hvb : validation_blocks st address data bus false = true := by
            unfold validation_blocks
            simp [hsafety, hp, ho]
          rw [if_neg hp, if_neg ho]
          refine ⟨by simp [hvb], ?_, by simp [hvb]⟩
          rw [hvb]
          simp
    · -- safety engine present, force = true
      rw [hsend]
      simp only [hsafety]
      have hvb : validation_blocks st address data bus true = false := by
        unfold validation_blocks
        simp [hsafety]
      have hsv : send_validation st address data bus true
          = { passed := true, violations := [], warnings := [] } := by
        unfold send_validation
        simp [hsafety]
      cases hrb : rate_limit_blocks st address now
      · have hok := (srt_outcome st address data bus now
          { passed := true, violations := [], warnings := [] }).1 hrb
        refine ⟨by simp [hok, hsv, hvb], ?_, by simp [hok, hrb]⟩
        rw [hvb]
        simp [hok]
      · obtain ⟨m, hm⟩ := (srt_outcome st address data bus now
          { passed := true, violations := [], warnings := [] }).2 hrb
        refine ⟨by simp [hm, hrb], ?_, by simp [hm, hvb, hrb]⟩
        rw [hvb]
        simp [hm]

/-- Witness for the amended C9: with neither gate configured, sending
succeeds and neither error shape occurs. -/
theorem send_outcome_characterization_witness :
    ((send plain_iface 0x123 [1] 0 false 0).1
        = Except.ok (send_validation plain_iface 0x123 [1] 0 false)
      ↔ (validation_blocks plain_iface 0x123 [1] 0 false = false
          ∧ rate_limit_blocks plain_iface 0x123 0 = false))
    ∧ ((∃ m, (send plain_iface 0x123 [1] 0 false 0).1
          = Except.error (SendError.permissionError m))
      ↔ validation_blocks plain_iface 0x123 [1] 0 false = true)
    ∧ ((∃ m, (send plain_iface 0x123 [1] 0 false 0).1
          = Except.error (SendError.runtimeError m))
      ↔ (validation_blocks plain_iface 0x123 [1] 0 false = false
          ∧ rate_limit_blocks plain_iface 0x123 0 = true)) :=
  send_outcome_characterization plain_iface 0x123 [1] 0 false 0 (by decide) (by decide)

end CanCli
